import Mathlib

/-!
# AsyncOTA: the update session controller

A shallow embedding of `src/AsyncOTA.h` and `src/AsyncOTA.cpp`.

* The controller object `AsyncOTAClass` is a record of its data members.
* The collaborators the controller only consumes (the `Update` storage backend,
  the HTTP request object, the millisecond clock, the watchdog and `ESP.restart`)
  are not part of the repository.  The backend is an arbitrary state machine
  (`UpdateClass β`), the request is a record of the two queries the handlers make
  on it, the clock reading is an argument, and whatever a handler does to the
  outside world is recorded in a list of `Effect`s, in program order.
* A `const char *` argument is represented by the characters it points to.
* `unsigned long` is 32 bits wide on the ESP32; it is a `Nat` reduced modulo
  `ULONG_MOD`.
-/

namespace AsyncOTA

/-! ## Constants of the Arduino core used by the controller -/

/-- Width of `unsigned long` (the type of `millis()` and `_rebootRequestMillis`). -/
def ULONG_MOD : Nat := 4294967296

/-- Modelled from the spec: the selector of the firmware partition, the default target
region (`U_FLASH` of the core's `Update.h`, which is not part of the sources). -/
def U_FLASH : Int := 0

/-- Modelled from the spec: the selector of the filesystem partition (`U_SPIFFS` of the
core's `Update.h`, which is not part of the sources). -/
def U_SPIFFS : Int := 100

/-- Modelled from the spec: the size hint "unknown total size" (`UPDATE_SIZE_UNKNOWN` of
the core's `Update.h`, which is not part of the sources). -/
def UPDATE_SIZE_UNKNOWN : Nat := 4294967295

/-- The reading of `millis()` at `t` milliseconds after boot. -/
def millis (t : Nat) : Nat := t % ULONG_MOD

/-! ## Data model -/

/-- The data members of `AsyncOTAClass` (AsyncOTA.h, lines 40-50) with their default
member initialisers. `_server` is the registered server, if any. -/
structure AsyncOTAClass where
  _server : Option Nat := none
  _id : String := ""
  _isAuthenticationRequired : Bool := false
  _updateMode : Int := U_FLASH
  _username : String := ""
  _password : String := ""
  _shouldReboot : Bool := false
  _rebootRequestMillis : Nat := 0
  _updateError : String := ""
deriving DecidableEq, Repr

/-- What the handlers ask of an `AsyncWebServerRequest`: the outcome of
`authenticate(username, password)` and `getParam(name, post)` (`none` is the null
pointer, `some v` a parameter of value `v`). -/
structure AsyncWebServerRequest where
  authenticate : String → String → Bool
  getParam : String → Bool → Option String

/-- The query `request->hasParam(name, post)`. -/
def AsyncWebServerRequest.hasParam (request : AsyncWebServerRequest) (name : String)
    (post : Bool) : Bool :=
  (request.getParam name post).isSome

/-- A response handed to `request->send`. -/
structure AsyncWebServerResponse where
  code : Nat
  contentType : String := ""
  content : String := ""
  headers : List (String × String) := []
deriving DecidableEq, Repr

/-- The storage backend `Update`, an arbitrary state machine over `β`. Every operation
that may change the backend returns its result together with the next backend state. -/
structure UpdateClass (β : Type) where
  setMD5 : β → String → Bool × β
  begin : β → Nat → Int → Bool × β
  write : β → List Nat → Nat → Nat × β
  end_ : β → Bool → Bool × β
  hasError : β → Bool
  printError : β → String

/-- The calls a handler makes on its collaborators, in program order. -/
inductive Effect where
  | requestAuthentication
  | send (response : AsyncWebServerResponse)
  | setMD5 (value : String)
  | wdtInit (timeout : Nat) (panics : Bool)
  | updateBegin (size : Nat) (command : Int)
  | updateWrite (data : List Nat) (len : Nat)
  | updateEnd (evenIfRemaining : Bool)
  | printError
  | restart
deriving DecidableEq, Repr

/-- The outcome of a handler: the controller, the backend and the calls made. -/
structure Outcome (β : Type) where
  ota : AsyncOTAClass
  upd : β
  effects : List Effect

/-- One chunk-receipt event of an upload: `(index, data, len, final)`. -/
structure Chunk where
  index : Nat
  data : List Nat
  len : Nat
  final : Bool
deriving DecidableEq, Repr

/-! ## Identity and authentication (AsyncOTA.cpp, lines 17-51) -/

/-- The text of `String(value, HEX)` after `toUpperCase()`. -/
def hexUpper (value : Nat) : String :=
  String.mk ((Nat.toDigits 16 value).map Char.toUpper)

/-- The constructor: the identity is the low 32 bits of the eFuse MAC in upper-case
hexadecimal; every other member has its default initialiser. -/
def AsyncOTAClass.new (efuseMac : Nat) : AsyncOTAClass :=
  { _id := hexUpper (efuseMac % 4294967296) }

/-- The method `setID`. -/
def setID (s : AsyncOTAClass) (id : String) : AsyncOTAClass :=
  { s with _id := id }

/-- The method `getID`. -/
def getID (s : AsyncOTAClass) : String :=
  s._id

/-- The method `setAuth`. -/
def setAuth (s : AsyncOTAClass) (username password : String) : AsyncOTAClass :=
  { s with
    _username := username
    _password := password
    _isAuthenticationRequired := (username.length != 0) && (password.length != 0) }

/-- The guard `_isAuthenticationRequired && !request->authenticate(...)` every handler
starts with. -/
def authFails (s : AsyncOTAClass) (request : AsyncWebServerRequest) : Bool :=
  s._isAuthenticationRequired && !request.authenticate s._username s._password

/-! ## Error tracking (AsyncOTA.cpp, lines 180-185) -/

/-- The method `trackError`: the backend's diagnostic text is stored in `_updateError`. -/
def trackError {β : Type} (U : UpdateClass β) (s : AsyncOTAClass) (u : β) : AsyncOTAClass :=
  { s with _updateError := U.printError u }

/-! ## The request handlers registered by `begin` (AsyncOTA.cpp, lines 69-162) -/

/-- The handler of `GET /update/id` (lines 69-75). -/
def handleGetId (s : AsyncOTAClass) (request : AsyncWebServerRequest) :
    AsyncOTAClass × List Effect :=
  if authFails s request then (s, [Effect.requestAuthentication])
  else
    (s, [Effect.send
      { code := 200, contentType := "application/json",
        content := "\x7b\"id\": \"" ++ getID s ++ "\"\x7d" }])

/-- The handler of `GET /update` (lines 80-87); `OTA_HTML` is the page of `OtaHTML.h`. -/
def handleGetUpdate (OTA_HTML : String) (s : AsyncOTAClass)
    (request : AsyncWebServerRequest) : AsyncOTAClass × List Effect :=
  if authFails s request then (s, [Effect.requestAuthentication])
  else
    (s, [Effect.send
      { code := 200, contentType := "text/html", content := OTA_HTML,
        headers := [("Content-Encoding", "gzip")] }])

/-- The handler of `OPTIONS /update` (lines 92-98). -/
def handleOptions (s : AsyncOTAClass) (request : AsyncWebServerRequest) :
    AsyncOTAClass × List Effect :=
  if authFails s request then (s, [Effect.requestAuthentication])
  else (s, [Effect.send { code := 200 }])

/-- The completion handler of `POST /update` (lines 105-118); `now` is the value
`millis()` returns. -/
def handleRequest {β : Type} (U : UpdateClass β) (s : AsyncOTAClass) (u : β) (now : Nat) :
    Outcome β :=
  let hasError := U.hasError u
  let response : AsyncWebServerResponse :=
    { code := if hasError then 500 else 200
      contentType := "text/plain"
      content := if hasError then s._updateError else "OK"
      headers := [("Connection", "close")] }
  { ota := { s with _rebootRequestMillis := now % ULONG_MOD, _shouldReboot := true }
    upd := u
    effects := [Effect.send response] }

/-- Lines 156-161 of the upload handler: the final chunk ends the update. `log` holds
the calls made so far. -/
def uploadEnd {β : Type} (U : UpdateClass β) (s : AsyncOTAClass) (u : β) (final : Bool)
    (log : List Effect) : Outcome β :=
  if final then
    let r := U.end_ u true
    if !r.1 then
      { ota := trackError U s r.2
        upd := r.2
        effects := log ++ [Effect.updateEnd true, Effect.printError,
          Effect.send { code := 400, contentType := "text/plain",
                        content := "Could not end OTA" }] }
    else { ota := s, upd := r.2, effects := log ++ [Effect.updateEnd true] }
  else { ota := s, upd := u, effects := log }

/-- Lines 148-161 of the upload handler: a chunk of non-zero length is written. -/
def uploadWrite {β : Type} (U : UpdateClass β) (s : AsyncOTAClass) (u : β)
    (data : List Nat) (len : Nat) (final : Bool) (log : List Effect) : Outcome β :=
  if len != 0 then
    let r := U.write u data len
    if r.1 != len then
      { ota := trackError U s r.2
        upd := r.2
        effects := log ++ [Effect.updateWrite data len, Effect.printError,
          Effect.send { code := 400, contentType := "text/plain",
                        content := "OTA could not begin" }] }
    else uploadEnd U s r.2 final (log ++ [Effect.updateWrite data len])
  else uploadEnd U s u final log

/-- Lines 137-139 of the upload handler: the form parameter `mode` of value `fs` selects
the filesystem partition. -/
def selectMode (s : AsyncOTAClass) (request : AsyncWebServerRequest) : AsyncOTAClass :=
  if request.hasParam "mode" true && request.getParam "mode" true == some "fs"
  then { s with _updateMode := U_SPIFFS } else s

/-- Lines 121-146 of the upload handler, the block of the first chunk (`index == 0`):
`Except.error r` when the handler returns from inside the block with outcome `r`,
`Except.ok r` when control reaches line 148 with the controller, the backend and the
calls made so far. -/
def uploadBegin {β : Type} (U : UpdateClass β) (s : AsyncOTAClass) (u : β)
    (request : AsyncWebServerRequest) (index : Nat) : Except (Outcome β) (Outcome β) :=
  if index == 0 then
    if authFails s request then
      Except.error { ota := s, upd := u, effects := [Effect.requestAuthentication] }
    else
      match request.getParam "md5" true with
      | none =>
        Except.error
          { ota := s, upd := u
            effects := [Effect.send { code := 400, contentType := "text/plain",
                                      content := "MD5 parameter missing or invalid" }] }
      | some value =>
        let m := U.setMD5 u value
        if !m.1 then
          Except.error
            { ota := s, upd := m.2
              effects := [Effect.setMD5 value,
                Effect.send { code := 400, contentType := "text/plain",
                              content := "MD5 parameter missing or invalid" }] }
        else
          let s1 := selectMode s request
          let b := U.begin m.2 UPDATE_SIZE_UNKNOWN s1._updateMode
          let log := [Effect.setMD5 value, Effect.wdtInit 15 false,
                      Effect.updateBegin UPDATE_SIZE_UNKNOWN s1._updateMode]
          if !b.1 then
            Except.error
              { ota := trackError U s1 b.2
                upd := b.2
                effects := log ++ [Effect.printError,
                  Effect.send { code := 400, contentType := "text/plain",
                                content := "OTA could not begin" }] }
          else Except.ok { ota := s1, upd := b.2, effects := log }
  else Except.ok { ota := s, upd := u, effects := [] }

/-- The upload handler of `POST /update` (lines 119-162), called for every chunk. -/
def handleUpload {β : Type} (U : UpdateClass β) (s : AsyncOTAClass) (u : β)
    (request : AsyncWebServerRequest) (index : Nat) (data : List Nat) (len : Nat)
    (final : Bool) : Outcome β :=
  match uploadBegin U s u request index with
  | Except.error r => r
  | Except.ok r => uploadWrite U r.ota r.upd data len final r.effects

/-- The method `begin` (lines 60-64): the server is stored and the credentials set; the
four routes it registers are the handlers above. -/
def begin (s : AsyncOTAClass) (server : Nat) (username : String := "")
    (password : String := "") : AsyncOTAClass :=
  setAuth { s with _server := some server } username password

/-- The method `loop` (lines 170-175): `true` when `ESP.restart()` is called; `now` is
the value `millis()` returns, the subtraction is that of `unsigned long`. -/
def loop (s : AsyncOTAClass) (now : Nat) : Bool :=
  s._shouldReboot &&
    decide ((now % ULONG_MOD + ULONG_MOD - s._rebootRequestMillis % ULONG_MOD) % ULONG_MOD
      > 2000)

/-! ## Request lifecycles and the device -/

/-- The chunk events of one upload, handled in order by the upload handler. -/
def runUpload {β : Type} (U : UpdateClass β) (s : AsyncOTAClass) (u : β)
    (request : AsyncWebServerRequest) : List Chunk → Outcome β
  | [] => { ota := s, upd := u, effects := [] }
  | c :: cs =>
    let r := handleUpload U s u request c.index c.data c.len c.final
    let r' := runUpload U r.ota r.upd request cs
    { ota := r'.ota, upd := r'.upd, effects := r.effects ++ r'.effects }

/-- One whole `POST /update` request: its chunk events, then its completion event at
time `t`. -/
def postUpdate {β : Type} (U : UpdateClass β) (s : AsyncOTAClass) (u : β)
    (request : AsyncWebServerRequest) (chunks : List Chunk) (t : Nat) : Outcome β :=
  let r := runUpload U s u request chunks
  let r' := handleRequest U r.ota r.upd (millis t)
  { ota := r'.ota, upd := r'.upd, effects := r.effects ++ r'.effects }

/-- What the device is built from: the backend, its state at boot, the eFuse MAC and the
page of `OtaHTML.h`. -/
structure Device (β : Type) where
  Update : UpdateClass β
  updateAtBoot : β
  efuseMac : Nat
  OTA_HTML : String

/-- The calls the host application and the HTTP layer make on the controller. -/
inductive Event where
  | setID (id : String)
  | setAuth (username password : String)
  | begin (server : Nat) (username password : String)
  | loop (t : Nat)
  | getId (request : AsyncWebServerRequest)
  | getUpdate (request : AsyncWebServerRequest)
  | options (request : AsyncWebServerRequest)
  | upload (request : AsyncWebServerRequest) (chunk : Chunk)
  | completion (request : AsyncWebServerRequest) (t : Nat)

/-- The device at boot: the global `AsyncOTA` object as its constructor leaves it. -/
def Device.boot {β : Type} (d : Device β) : AsyncOTAClass × β :=
  (AsyncOTAClass.new d.efuseMac, d.updateAtBoot)

/-- One event on the device. `ESP.restart()` does not return: the device boots again,
which constructs the global controller object anew. -/
def step {β : Type} (d : Device β) (w : AsyncOTAClass × β) :
    Event → (AsyncOTAClass × β) × List Effect
  | Event.setID id => ((setID w.1 id, w.2), [])
  | Event.setAuth username password => ((setAuth w.1 username password, w.2), [])
  | Event.begin server username password => ((begin w.1 server username password, w.2), [])
  | Event.loop t => if loop w.1 (millis t) then (d.boot, [Effect.restart]) else (w, [])
  | Event.getId request => (((handleGetId w.1 request).1, w.2), (handleGetId w.1 request).2)
  | Event.getUpdate request =>
    (((handleGetUpdate d.OTA_HTML w.1 request).1, w.2),
      (handleGetUpdate d.OTA_HTML w.1 request).2)
  | Event.options request =>
    (((handleOptions w.1 request).1, w.2), (handleOptions w.1 request).2)
  | Event.upload request c =>
    let r := handleUpload d.Update w.1 w.2 request c.index c.data c.len c.final
    ((r.ota, r.upd), r.effects)
  | Event.completion _ t =>
    let r := handleRequest d.Update w.1 w.2 (millis t)
    ((r.ota, r.upd), r.effects)

/-- A sequence of events on the device, with the calls made along the way. -/
def run {β : Type} (d : Device β) (w : AsyncOTAClass × β) :
    List Event → (AsyncOTAClass × β) × List Effect
  | [] => (w, [])
  | e :: es =>
    let r := step d w e
    let r' := run d r.1 es
    (r'.1, r.2 ++ r'.2)

/-- A controller state the device can be in after some sequence of events from boot. -/
def Reachable {β : Type} (d : Device β) (s : AsyncOTAClass) : Prop :=
  ∃ events : List Event, (run d d.boot events).1.1 = s

/-- How many times `ESP.restart()` is called in a list of calls. -/
def restartCount (effects : List Effect) : Nat :=
  effects.count Effect.restart

/-! ## Predicates used in the statements -/

/-- The response of the upload handler to a failure: status 400 and a plain text. -/
def badRequest (message : String) : Effect :=
  Effect.send { code := 400, contentType := "text/plain", content := message }

/-- The flag agrees with the stored credentials. -/
def AuthInvariant (s : AsyncOTAClass) : Prop :=
  s._isAuthenticationRequired = true ↔ (s._username ≠ "" ∧ s._password ≠ "")

/-- The members a chunk event or a completion event never writes. -/
def SameCredentials (s s' : AsyncOTAClass) : Prop :=
  s'._server = s._server ∧ s'._id = s._id ∧
    s'._isAuthenticationRequired = s._isAuthenticationRequired ∧
    s'._username = s._username ∧ s'._password = s._password

/-- The calls of the host application: configuration and the periodic poll. -/
def Event.isHostCall : Event → Bool
  | Event.setID _ => true
  | Event.setAuth _ _ => true
  | Event.begin _ _ _ => true
  | Event.loop _ => true
  | _ => false

/-- Whether the event is a call of `loop` that restarts a controller in state `s`. -/
def loopFires (s : AsyncOTAClass) : Event → Bool
  | Event.loop t => loop s (millis t)
  | _ => false

/-- The responses a handler can give: a response sent or the authentication challenge. -/
def Effect.isResponse : Effect → Bool
  | Effect.send _ => true
  | Effect.requestAuthentication => true
  | _ => false

/-! ## A small storage backend and requests for the examples -/

/-- The state of the example backend: a region of `capacity` bytes. -/
structure FlashState where
  capacity : Nat
  written : Nat := 0
  running : Bool := false
  error : Option String := none
  md5 : String := ""
deriving DecidableEq, Repr

/-- An example backend: the checksum must have 32 characters, a running update cannot
be begun again, a write beyond the capacity aborts with an error, and nothing is
accepted while an error is set or no update is running. -/
def flashUpdate : UpdateClass FlashState where
  setMD5 b value := if value.length == 32 then (true, { b with md5 := value }) else (false, b)
  begin b size _ :=
    if b.running then (false, b)
    else if size == 0 then (false, { b with error := some "Bad Size Given" })
    else (true, { b with running := true, written := 0, error := none })
  write b _ len :=
    if b.error.isSome || !b.running then (0, b)
    else if b.written + len > b.capacity then
      (0, { b with running := false, error := some "Not Enough Space" })
    else (len, { b with written := b.written + len })
  end_ b _ :=
    if b.error.isSome || !b.running then (false, b) else (true, { b with running := false })
  hasError b := b.error.isSome
  printError b := b.error.getD "No Error"

/-- An example device with a region of eight bytes. -/
def flashDevice : Device FlashState :=
  { Update := flashUpdate, updateAtBoot := { capacity := 8 }, efuseMac := 11259375,
    OTA_HTML := "" }

/-- A request without credentials that carries a well-formed checksum and no `mode`. -/
def plainRequest : AsyncWebServerRequest :=
  { authenticate := fun _ _ => false
    getParam := fun name post =>
      if name == "md5" && post then some "d41d8cd98f00b204e9800998ecf8427e" else none }

/-- A request without credentials that carries a well-formed checksum and `mode=fs`. -/
def fsRequest : AsyncWebServerRequest :=
  { authenticate := fun _ _ => false
    getParam := fun name post =>
      if name == "md5" && post then some "d41d8cd98f00b204e9800998ecf8427e"
      else if name == "mode" && post then some "fs" else none }

/-- A request without credentials and without parameters. -/
def bareRequest : AsyncWebServerRequest :=
  { authenticate := fun _ _ => false, getParam := fun _ _ => none }

/-! # Theorems -/

/-! ## Identity and authentication: the `authRequired` invariant -/

/-- A string has length zero exactly when it is the empty string. -/
theorem length_eq_zero_iff_empty (x : String) : x.length = 0 ↔ x = "" := by
  constructor
  · intro h
    cases x with
    | mk data =>
      have hd : data = [] := List.length_eq_zero.mp h
      subst hd
      rfl
  · intro h
    subst h
    rfl

theorem setAuth_flag (s : AsyncOTAClass) (username password : String) :
    (setAuth s username password)._isAuthenticationRequired = true ↔
      (username ≠ "" ∧ password ≠ "") := by
  simp [setAuth, length_eq_zero_iff_empty]

theorem setAuth_invariant (s : AsyncOTAClass) (username password : String) :
    AuthInvariant (setAuth s username password) := by
  unfold AuthInvariant
  rw [setAuth_flag]
  rfl

theorem new_invariant (efuseMac : Nat) : AuthInvariant (AsyncOTAClass.new efuseMac) := by
  simp [AuthInvariant, AsyncOTAClass.new]

theorem SameCredentials.invariant {s s' : AsyncOTAClass} (h : SameCredentials s s')
    (hs : AuthInvariant s) : AuthInvariant s' := by
  obtain ⟨_, _, h1, h2, h3⟩ := h
  unfold AuthInvariant at *
  rw [h1, h2, h3]
  exact hs

/-- Case analysis of lines 156-161. -/
theorem uploadEnd_cases {β : Type} (U : UpdateClass β) (s : AsyncOTAClass) (u : β)
    (final : Bool) (log : List Effect) (P : Outcome β → Prop)
    (hnot : final = false → P { ota := s, upd := u, effects := log })
    (hok : final = true → (U.end_ u true).1 = true →
      P { ota := s, upd := (U.end_ u true).2, effects := log ++ [Effect.updateEnd true] })
    (hfail : final = true → (U.end_ u true).1 = false →
      P { ota := trackError U s (U.end_ u true).2, upd := (U.end_ u true).2,
          effects := log ++ [Effect.updateEnd true, Effect.printError,
            badRequest "Could not end OTA"] }) :
    P (uploadEnd U s u final log) := by
  unfold uploadEnd
  cases final with
  | false => simpa using hnot rfl
  | true =>
    cases h : (U.end_ u true).1 with
    | false => simpa [h, badRequest] using hfail rfl h
    | true => simpa [h] using hok rfl h

/-- Case analysis of lines 148-161. -/
theorem uploadWrite_cases {β : Type} (U : UpdateClass β) (s : AsyncOTAClass) (u : β)
    (data : List Nat) (len : Nat) (final : Bool) (log : List Effect) (P : Outcome β → Prop)
    (hzero : len = 0 → P (uploadEnd U s u final log))
    (hok : len ≠ 0 → (U.write u data len).1 = len →
      P (uploadEnd U s (U.write u data len).2 final (log ++ [Effect.updateWrite data len])))
    (hfail : len ≠ 0 → (U.write u data len).1 ≠ len →
      P { ota := trackError U s (U.write u data len).2, upd := (U.write u data len).2,
          effects := log ++ [Effect.updateWrite data len, Effect.printError,
            badRequest "OTA could not begin"] }) :
    P (uploadWrite U s u data len final log) := by
  unfold uploadWrite
  by_cases hl : len = 0
  · simpa [hl] using hzero hl
  · by_cases hw : (U.write u data len).1 = len
    · simpa [hl, hw] using hok hl hw
    · simpa [hl, hw, badRequest] using hfail hl hw

/-- Case analysis of the upload handler, lines 119-146. -/
theorem handleUpload_cases {β : Type} (U : UpdateClass β) (s : AsyncOTAClass) (u : β)
    (request : AsyncWebServerRequest) (index : Nat) (data : List Nat) (len : Nat)
    (final : Bool) (P : Outcome β → Prop)
    (hlater : index ≠ 0 → P (uploadWrite U s u data len final []))
    (hauth : index = 0 → authFails s request = true →
      P { ota := s, upd := u, effects := [Effect.requestAuthentication] })
    (hmissing : index = 0 → authFails s request = false →
      request.getParam "md5" true = none →
      P { ota := s, upd := u, effects := [badRequest "MD5 parameter missing or invalid"] })
    (hinvalid : ∀ value, index = 0 → authFails s request = false →
      request.getParam "md5" true = some value → (U.setMD5 u value).1 = false →
      P { ota := s, upd := (U.setMD5 u value).2,
          effects := [Effect.setMD5 value, badRequest "MD5 parameter missing or invalid"] })
    (hrefused : ∀ value, index = 0 → authFails s request = false →
      request.getParam "md5" true = some value → (U.setMD5 u value).1 = true →
      (U.begin (U.setMD5 u value).2 UPDATE_SIZE_UNKNOWN (selectMode s request)._updateMode).1
        = false →
      P { ota := trackError U (selectMode s request)
            (U.begin (U.setMD5 u value).2 UPDATE_SIZE_UNKNOWN
              (selectMode s request)._updateMode).2
          upd := (U.begin (U.setMD5 u value).2 UPDATE_SIZE_UNKNOWN
              (selectMode s request)._updateMode).2
          effects := [Effect.setMD5 value, Effect.wdtInit 15 false,
            Effect.updateBegin UPDATE_SIZE_UNKNOWN (selectMode s request)._updateMode,
            Effect.printError, badRequest "OTA could not begin"] })
    (hbegun : ∀ value, index = 0 → authFails s request = false →
      request.getParam "md5" true = some value → (U.setMD5 u value).1 = true →
      (U.begin (U.setMD5 u value).2 UPDATE_SIZE_UNKNOWN (selectMode s request)._updateMode).1
        = true →
      P (uploadWrite U (selectMode s request)
          (U.begin (U.setMD5 u value).2 UPDATE_SIZE_UNKNOWN
            (selectMode s request)._updateMode).2 data len final
          [Effect.setMD5 value, Effect.wdtInit 15 false,
            Effect.updateBegin UPDATE_SIZE_UNKNOWN (selectMode s request)._updateMode])) :
    P (handleUpload U s u request index data len final) := by
  unfold handleUpload uploadBegin
  by_cases hi : index = 0
  · cases ha : authFails s request with
    | true => simpa [hi, ha] using hauth hi ha
    | false =>
      cases hm : request.getParam "md5" true with
      | none => simpa [hi, ha, hm, badRequest] using hmissing hi ha hm
      | some value =>
        cases hs : (U.setMD5 u value).1 with
        | false => simpa [hi, ha, hm, hs, badRequest] using hinvalid value hi ha hm hs
        | true =>
          cases hb : (U.begin (U.setMD5 u value).2 UPDATE_SIZE_UNKNOWN
              (selectMode s request)._updateMode).1 with
          | false => simpa [hi, ha, hm, hs, hb, badRequest] using hrefused value hi ha hm hs hb
          | true => simpa [hi, ha, hm, hs, hb] using hbegun value hi ha hm hs hb
  · simpa [hi] using hlater hi

theorem SameCredentials.refl (s : AsyncOTAClass) : SameCredentials s s :=
  ⟨rfl, rfl, rfl, rfl, rfl⟩

theorem SameCredentials.trans {s s' s'' : AsyncOTAClass} (h : SameCredentials s s')
    (h' : SameCredentials s' s'') : SameCredentials s s'' := by
  obtain ⟨a1, a2, a3, a4, a5⟩ := h
  obtain ⟨b1, b2, b3, b4, b5⟩ := h'
  exact ⟨b1.trans a1, b2.trans a2, b3.trans a3, b4.trans a4, b5.trans a5⟩

theorem trackError_credentials {β : Type} (U : UpdateClass β) (s : AsyncOTAClass) (u : β) :
    SameCredentials s (trackError U s u) :=
  ⟨rfl, rfl, rfl, rfl, rfl⟩

theorem selectMode_credentials (s : AsyncOTAClass) (request : AsyncWebServerRequest) :
    SameCredentials s (selectMode s request) := by
  unfold selectMode
  split_ifs
  · exact ⟨rfl, rfl, rfl, rfl, rfl⟩
  · exact SameCredentials.refl s

theorem uploadEnd_credentials {β : Type} (U : UpdateClass β) (s : AsyncOTAClass) (u : β)
    (final : Bool) (log : List Effect) :
    SameCredentials s (uploadEnd U s u final log).ota := by
  apply uploadEnd_cases U s u final log (fun r => SameCredentials s r.ota)
  · intro _; exact SameCredentials.refl s
  · intro _ _; exact SameCredentials.refl s
  · intro _ _; exact trackError_credentials U s _

theorem uploadWrite_credentials {β : Type} (U : UpdateClass β) (s : AsyncOTAClass) (u : β)
    (data : List Nat) (len : Nat) (final : Bool) (log : List Effect) :
    SameCredentials s (uploadWrite U s u data len final log).ota := by
  apply uploadWrite_cases U s u data len final log (fun r => SameCredentials s r.ota)
  · intro _; exact uploadEnd_credentials U s u final log
  · intro _ _; exact uploadEnd_credentials U s _ final _
  · intro _ _; exact trackError_credentials U s _

theorem handleUpload_credentials {β : Type} (U : UpdateClass β) (s : AsyncOTAClass) (u : β)
    (request : AsyncWebServerRequest) (index : Nat) (data : List Nat) (len : Nat)
    (final : Bool) :
    SameCredentials s (handleUpload U s u request index data len final).ota := by
  apply handleUpload_cases U s u request index data len final
    (fun r => SameCredentials s r.ota)
  · intro _; exact uploadWrite_credentials U s u data len final []
  · intro _ _; exact SameCredentials.refl s
  · intro _ _ _; exact SameCredentials.refl s
  · intro _ _ _ _ _; exact SameCredentials.refl s
  · intro _ _ _ _ _ _
    exact (selectMode_credentials s request).trans (trackError_credentials U _ _)
  · intro _ _ _ _ _ _
    exact (selectMode_credentials s request).trans (uploadWrite_credentials U _ _ _ _ _ _)

theorem step_invariant {β : Type} (d : Device β) (w : AsyncOTAClass × β) (e : Event)
    (hw : AuthInvariant w.1) : AuthInvariant (step d w e).1.1 := by
  cases e with
  | setID id => simpa [step, setID, AuthInvariant] using hw
  | setAuth username password => exact setAuth_invariant _ _ _
  | begin server username password => exact setAuth_invariant _ _ _
  | loop t =>
    simp only [step]
    split_ifs
    · exact new_invariant _
    · exact hw
  | getId request =>
    simp only [step, handleGetId]
    split_ifs <;> exact hw
  | getUpdate request =>
    simp only [step, handleGetUpdate]
    split_ifs <;> exact hw
  | options request =>
    simp only [step, handleOptions]
    split_ifs <;> exact hw
  | upload request c =>
    exact (handleUpload_credentials d.Update w.1 w.2 request _ _ _ _).invariant hw
  | completion request t =>
    simpa [step, handleRequest, AuthInvariant] using hw

theorem run_invariant {β : Type} (d : Device β) (events : List Event) :
    ∀ w : AsyncOTAClass × β, AuthInvariant w.1 → AuthInvariant (run d w events).1.1 := by
  induction events with
  | nil => intro w hw; exact hw
  | cons e es ih =>
    intro w hw
    exact ih _ (step_invariant d w e hw)

/-- C8: after `setAuth(username, password)` the flag `_isAuthenticationRequired` is true
exactly when both strings are non-empty, and in every state the device reaches from boot
by `setID`, `setAuth`, `begin`, `loop` and the request handlers the flag is true exactly
when the stored username and the stored password are both non-empty. -/
theorem authRequired_iff_credentials_nonempty :
    (∀ (s : AsyncOTAClass) (username password : String),
      (setAuth s username password)._isAuthenticationRequired = true ↔
        (username ≠ "" ∧ password ≠ "")) ∧
    (∀ (β : Type) (d : Device β) (s : AsyncOTAClass), Reachable d s →
      (s._isAuthenticationRequired = true ↔ (s._username ≠ "" ∧ s._password ≠ ""))) := by
  refine ⟨setAuth_flag, ?_⟩
  rintro β d s ⟨events, rfl⟩
  exact run_invariant d events d.boot (new_invariant _)

/-! ## The identity endpoint -/

/-- C9: the handler of `GET /update/id` never changes the controller; when
authentication is required and the request's `authenticate` check fails it signals the
authentication challenge and sends nothing else (no identity payload); otherwise it sends
status 200, content type `application/json` and the body `{"id": "<identity>"}` built
from what `getID` returns. -/
theorem getId_challenge_or_identity (s : AsyncOTAClass) (request : AsyncWebServerRequest) :
    (handleGetId s request).1 = s ∧
    ((s._isAuthenticationRequired = true ∧
        request.authenticate s._username s._password = false) →
      (handleGetId s request).2 = [Effect.requestAuthentication]) ∧
    (¬ (s._isAuthenticationRequired = true ∧
        request.authenticate s._username s._password = false) →
      (handleGetId s request).2 =
        [Effect.send { code := 200, contentType := "application/json",
                       content := "\x7b\"id\": \"" ++ getID s ++ "\"\x7d",
                       headers := [] }]) := by
  refine ⟨?_, ?_, ?_⟩
  · unfold handleGetId
    split_ifs <;> rfl
  · rintro ⟨h1, h2⟩
    simp [handleGetId, authFails, h1, h2]
  · intro h
    have hf : authFails s request = false := by
      cases h1 : s._isAuthenticationRequired
      · simp [authFails, h1]
      · cases h2 : request.authenticate s._username s._password
        · exact absurd ⟨h1, h2⟩ h
        · simp [authFails, h1, h2]
    simp [handleGetId, hf]

/-- The challenge for an unauthenticated request on a protected device, the identity
payload on an open one. -/
theorem getId_challenge_or_identity_witness :
    (handleGetId (setAuth (AsyncOTAClass.new 11259375) "admin" "secret") bareRequest).2 =
        [Effect.requestAuthentication] ∧
    (handleGetId (AsyncOTAClass.new 11259375) bareRequest).2 =
        [Effect.send { code := 200, contentType := "application/json",
                       content := "\x7b\"id\": \"ABCDEF\"\x7d", headers := [] }] :=
  ⟨(getId_challenge_or_identity _ bareRequest).2.1 ⟨by decide, by decide⟩,
   (getId_challenge_or_identity (AsyncOTAClass.new 11259375) bareRequest).2.2 (by decide)⟩

/-! ## The deferred reboot -/

/-- The `unsigned long` subtraction of `loop` is the difference modulo `2^32`. -/
theorem loop_eq_true_iff (s : AsyncOTAClass) (now : Nat) :
    loop s now = true ↔
      (s._shouldReboot = true ∧
        2000 < ((now : Int) - (s._rebootRequestMillis : Int)) % 4294967296) := by
  simp only [loop, ULONG_MOD, Bool.and_eq_true, decide_eq_true_eq]
  constructor
  · rintro ⟨h1, h2⟩
    exact ⟨h1, by omega⟩
  · rintro ⟨h1, h2⟩
    exact ⟨h1, by omega⟩

/-- C10, refuted as stated: with a reboot pending since the clock read 5000, the call of
`loop` at clock reading 7000 (exactly 2000 ms elapsed) does not restart, so "restart if
and only if pending and at least 2000 ms elapsed" fails there. -/
theorem loop_at_exactly_2000_does_not_restart :
    ¬ (loop { _shouldReboot := true, _rebootRequestMillis := 5000 } 7000 = true ↔
        ((({ _shouldReboot := true, _rebootRequestMillis := 5000 } :
            AsyncOTAClass)._shouldReboot = true) ∧
          (2000 : Int) ≤ ((7000 : Int) - (5000 : Int)) % 4294967296)) := by
  decide

/-- C10, amended: for every request timestamp and every clock reading, `loop` invokes
restart if and only if a reboot is pending and the elapsed time `(now - t) mod 2^32` is
strictly greater than 2000 ms. -/
theorem loop_restarts_iff_pending_and_more_than_2000 (s : AsyncOTAClass) (now : Nat) :
    loop s now = true ↔
      (s._shouldReboot = true ∧
        ((now : Int) - (s._rebootRequestMillis : Int)) % 4294967296 > 2000) := by
  exact loop_eq_true_iff s now

/-- The completion handler marks the reboot pending at the clock reading it is given. -/
theorem handleRequest_reboot {β : Type} (U : UpdateClass β) (s : AsyncOTAClass) (u : β)
    (t : Nat) :
    (handleRequest U s u (millis t)).ota._shouldReboot = true ∧
      (handleRequest U s u (millis t)).ota._rebootRequestMillis = millis t := by
  simp [handleRequest, millis]

/-- No restart within the first 2000 ms after the timestamp. -/
theorem loop_false_of_recent (s : AsyncOTAClass) (t dt : Nat)
    (hs : s._rebootRequestMillis = millis t) (hdt : dt < 2000) :
    loop s (millis (t + dt)) = false := by
  cases h : loop s (millis (t + dt)) with
  | false => rfl
  | true =>
    exfalso
    have h2 := ((loop_eq_true_iff s _).mp h).2
    rw [hs] at h2
    simp only [millis, ULONG_MOD] at h2
    omega

/-! ## The upload: a request the backend accepts -/

/-- C1: for every controller state and every sequence of chunk events of a
`POST /update` request after which the backend reports no error (in particular when
authentication passes, the checksum is accepted and begin, every write and end succeed),
the completion handler responds with status 200 and body "OK", a reboot is pending with
the completion time as its timestamp, and no call of `loop` made less than 2000 ms after
that timestamp invokes restart. -/
theorem post_without_error_ok_and_reboot_deferred {β : Type} (U : UpdateClass β)
    (s : AsyncOTAClass) (u : β) (request : AsyncWebServerRequest) (chunks : List Chunk)
    (t : Nat)
    (herr : U.hasError (runUpload U s u request chunks).upd = false) :
    (handleRequest U (runUpload U s u request chunks).ota
        (runUpload U s u request chunks).upd (millis t)).effects =
      [Effect.send { code := 200, contentType := "text/plain", content := "OK",
                     headers := [("Connection", "close")] }] ∧
    (postUpdate U s u request chunks t).ota._shouldReboot = true ∧
    (postUpdate U s u request chunks t).ota._rebootRequestMillis = millis t ∧
    ∀ dt : Nat, dt < 2000 →
      loop (postUpdate U s u request chunks t).ota (millis (t + dt)) = false := by
  have hr := handleRequest_reboot U (runUpload U s u request chunks).ota
    (runUpload U s u request chunks).upd t
  refine ⟨?_, hr.1, hr.2, ?_⟩
  · simp [handleRequest, herr]
  · intro dt hdt
    exact loop_false_of_recent _ t dt hr.2 hdt

/-- An upload of two chunks that fits the region: status 200, body "OK", reboot pending
since 5000, and no restart 1999 ms later. -/
theorem post_without_error_ok_and_reboot_deferred_witness :
    (handleRequest flashUpdate
        (runUpload flashUpdate (AsyncOTAClass.new 11259375) { capacity := 8 } plainRequest
          [⟨0, [1, 2, 3], 3, false⟩, ⟨3, [4, 5], 2, true⟩]).ota
        (runUpload flashUpdate (AsyncOTAClass.new 11259375) { capacity := 8 } plainRequest
          [⟨0, [1, 2, 3], 3, false⟩, ⟨3, [4, 5], 2, true⟩]).upd (millis 5000)).effects =
      [Effect.send { code := 200, contentType := "text/plain", content := "OK",
                     headers := [("Connection", "close")] }] ∧
    (postUpdate flashUpdate (AsyncOTAClass.new 11259375) { capacity := 8 } plainRequest
        [⟨0, [1, 2, 3], 3, false⟩, ⟨3, [4, 5], 2, true⟩] 5000).ota._rebootRequestMillis =
      5000 ∧
    loop (postUpdate flashUpdate (AsyncOTAClass.new 11259375) { capacity := 8 } plainRequest
        [⟨0, [1, 2, 3], 3, false⟩, ⟨3, [4, 5], 2, true⟩] 5000).ota (millis (5000 + 1999)) =
      false :=
  have h := post_without_error_ok_and_reboot_deferred flashUpdate
    (AsyncOTAClass.new 11259375) { capacity := 8 } plainRequest
    [⟨0, [1, 2, 3], 3, false⟩, ⟨3, [4, 5], 2, true⟩] 5000 (by decide)
  ⟨h.1, h.2.2.1, h.2.2.2 1999 (by decide)⟩

/-! ## The upload: which calls a chunk event makes -/

theorem uploadEnd_effects_mem {β : Type} (U : UpdateClass β) (s : AsyncOTAClass) (u : β)
    (final : Bool) (log : List Effect) :
    ∀ e ∈ (uploadEnd U s u final log).effects,
      e ∈ log ∨ e = Effect.updateEnd true ∨ e = Effect.printError ∨
        e = badRequest "Could not end OTA" := by
  apply uploadEnd_cases U s u final log
    (fun r => ∀ e ∈ r.effects, e ∈ log ∨ e = Effect.updateEnd true ∨
      e = Effect.printError ∨ e = badRequest "Could not end OTA")
  · intro _ e he
    exact Or.inl he
  · intro _ _ e he
    simp only [List.mem_append, List.mem_singleton] at he
    tauto
  · intro _ _ e he
    simp only [List.mem_append, List.mem_cons, List.mem_singleton, List.not_mem_nil,
      or_false] at he
    tauto

theorem uploadWrite_effects_mem {β : Type} (U : UpdateClass β) (s : AsyncOTAClass) (u : β)
    (data : List Nat) (len : Nat) (final : Bool) (log : List Effect) :
    ∀ e ∈ (uploadWrite U s u data len final log).effects,
      e ∈ log ∨ e = Effect.updateWrite data len ∨ e = Effect.updateEnd true ∨
        e = Effect.printError ∨ e = badRequest "Could not end OTA" ∨
        e = badRequest "OTA could not begin" := by
  apply uploadWrite_cases U s u data len final log
    (fun r => ∀ e ∈ r.effects, e ∈ log ∨ e = Effect.updateWrite data len ∨
      e = Effect.updateEnd true ∨ e = Effect.printError ∨
      e = badRequest "Could not end OTA" ∨ e = badRequest "OTA could not begin")
  · intro _ e he
    have := uploadEnd_effects_mem U s u final log e he
    tauto
  · intro _ _ e he
    have := uploadEnd_effects_mem U s _ final _ e he
    simp only [List.mem_append, List.mem_singleton] at this
    tauto
  · intro _ _ e he
    simp only [List.mem_append, List.mem_cons, List.mem_singleton, List.not_mem_nil,
      or_false] at he
    tauto

/-- A chunk event of a request without the `md5` parameter never begins an update. -/
theorem handleUpload_no_begin_of_md5_missing {β : Type} (U : UpdateClass β)
    (s : AsyncOTAClass) (u : β) (request : AsyncWebServerRequest) (index : Nat)
    (data : List Nat) (len : Nat) (final : Bool)
    (hmd5 : request.getParam "md5" true = none) (size : Nat) (command : Int) :
    Effect.updateBegin size command ∉
      (handleUpload U s u request index data len final).effects := by
  apply handleUpload_cases U s u request index data len final
    (fun r => Effect.updateBegin size command ∉ r.effects)
  · intro _ he
    have := uploadWrite_effects_mem U s u data len final [] _ he
    simp [badRequest] at this
  · intro _ _
    simp
  · intro _ _ _
    simp [badRequest]
  · intro value _ _ hv _
    rw [hmd5] at hv
    cases hv
  · intro value _ _ hv _ _
    rw [hmd5] at hv
    cases hv
  · intro value _ _ hv _ _
    rw [hmd5] at hv
    cases hv

theorem runUpload_no_begin_of_md5_missing {β : Type} (U : UpdateClass β)
    (request : AsyncWebServerRequest) (hmd5 : request.getParam "md5" true = none)
    (size : Nat) (command : Int) (chunks : List Chunk) :
    ∀ (s : AsyncOTAClass) (u : β),
      Effect.updateBegin size command ∉ (runUpload U s u request chunks).effects := by
  induction chunks with
  | nil => intro s u; simp [runUpload]
  | cons c cs ih =>
    intro s u
    simp only [runUpload, List.mem_append, not_or]
    exact ⟨handleUpload_no_begin_of_md5_missing U s u request _ _ _ _ hmd5 size command,
      ih _ _⟩

/-- C2: for every controller state and every `POST /update` request that passes
authentication but carries no `md5` parameter, no chunk event of the request invokes the
backend's begin operation, and the handler of the first chunk (offset 0) responds with
status 400 and the body "MD5 parameter missing or invalid". -/
theorem post_without_md5_never_begins {β : Type} (U : UpdateClass β) (s : AsyncOTAClass)
    (u : β) (request : AsyncWebServerRequest) (chunks : List Chunk)
    (hauth : s._isAuthenticationRequired = false ∨
      request.authenticate s._username s._password = true)
    (hmd5 : request.getParam "md5" true = none) :
    (∀ (size : Nat) (command : Int),
      Effect.updateBegin size command ∉ (runUpload U s u request chunks).effects) ∧
    (∀ (data : List Nat) (len : Nat) (final : Bool),
      (handleUpload U s u request 0 data len final).effects =
        [Effect.send { code := 400, contentType := "text/plain",
                       content := "MD5 parameter missing or invalid", headers := [] }]) := by
  refine ⟨fun size command =>
    runUpload_no_begin_of_md5_missing U request hmd5 size command chunks s u, ?_⟩
  intro data len final
  have hf : authFails s request = false := by
    rcases hauth with h | h <;> simp [authFails, h]
  simp [handleUpload, uploadBegin, hf, hmd5]

/-- An upload of two chunks without `md5` on an open device: the calls made are the 400
response to the first chunk and the attempt to write the second chunk, never a begin. -/
theorem post_without_md5_never_begins_witness :
    Effect.updateBegin UPDATE_SIZE_UNKNOWN U_FLASH ∉
        (runUpload flashUpdate (AsyncOTAClass.new 11259375) { capacity := 8 } bareRequest
          [⟨0, [1, 2, 3], 3, false⟩, ⟨3, [4, 5], 2, true⟩]).effects ∧
    (handleUpload flashUpdate (AsyncOTAClass.new 11259375) { capacity := 8 } bareRequest
        0 [1, 2, 3] 3 false).effects =
      [Effect.send { code := 400, contentType := "text/plain",
                     content := "MD5 parameter missing or invalid", headers := [] }] :=
  have h := post_without_md5_never_begins flashUpdate (AsyncOTAClass.new 11259375)
    { capacity := 8 } bareRequest [⟨0, [1, 2, 3], 3, false⟩, ⟨3, [4, 5], 2, true⟩]
    (Or.inl (by decide)) (by decide)
  ⟨h.1 UPDATE_SIZE_UNKNOWN U_FLASH, h.2 [1, 2, 3] 3 false⟩

/-! ## The upload: a short write -/

/-- The upload handler is the block of the first chunk followed by lines 148-161. -/
theorem handleUpload_of_uploadBegin_ok {β : Type} (U : UpdateClass β) (s : AsyncOTAClass)
    (u : β) (request : AsyncWebServerRequest) (index : Nat) (data : List Nat) (len : Nat)
    (final : Bool) (r : Outcome β) (hreach : uploadBegin U s u request index = Except.ok r) :
    handleUpload U s u request index data len final =
      uploadWrite U r.ota r.upd data len final r.effects := by
  simp [handleUpload, hreach]

/-- The calls made before line 148 are at most `setMD5`, the watchdog and `begin`. -/
theorem uploadBegin_ok_effects {β : Type} (U : UpdateClass β) (s : AsyncOTAClass) (u : β)
    (request : AsyncWebServerRequest) (index : Nat) (r : Outcome β)
    (hreach : uploadBegin U s u request index = Except.ok r) :
    r.effects = [] ∨ ∃ value command, r.effects =
      [Effect.setMD5 value, Effect.wdtInit 15 false,
        Effect.updateBegin UPDATE_SIZE_UNKNOWN command] := by
  unfold uploadBegin at hreach
  split_ifs at hreach
  · split at hreach
    · cases hreach
    · dsimp only at hreach
      split_ifs at hreach
      cases hreach
      exact Or.inr ⟨_, _, rfl⟩
  · cases hreach
    exact Or.inl rfl

/-- C3, refuted as stated: on a region of three bytes the write of the first chunk (four
bytes) is not accepted and its handler responds 400, yet the handler of the second chunk
of the same request invokes the backend's write again. -/
theorem later_chunk_is_written_after_mismatch :
    (flashUpdate.write
        (flashUpdate.begin (flashUpdate.setMD5 { capacity := 3 }
          "d41d8cd98f00b204e9800998ecf8427e").2 UPDATE_SIZE_UNKNOWN U_FLASH).2
        [1, 2, 3, 4] 4).1 ≠ 4 ∧
    (runUpload flashUpdate (AsyncOTAClass.new 11259375) { capacity := 3 } plainRequest
        [⟨0, [1, 2, 3, 4], 4, false⟩, ⟨4, [5, 6], 2, true⟩]).effects =
      [Effect.setMD5 "d41d8cd98f00b204e9800998ecf8427e", Effect.wdtInit 15 false,
       Effect.updateBegin UPDATE_SIZE_UNKNOWN U_FLASH,
       Effect.updateWrite [1, 2, 3, 4] 4, Effect.printError,
       Effect.send { code := 400, contentType := "text/plain",
                     content := "OTA could not begin", headers := [] },
       Effect.updateWrite [5, 6] 2, Effect.printError,
       Effect.send { code := 400, contentType := "text/plain",
                     content := "OTA could not begin", headers := [] }] := by
  decide

/-- C3, amended: when the handler of a chunk reaches the write (line 148) with a
non-zero length and the backend's write returns a byte count different from the
submitted length, the handler stores the backend's diagnostic text, responds with status
400 (body "OTA could not begin") and makes no further backend call for that chunk: no
second write and no end. The controller keeps no failure state of the request: the
handler of any continuing chunk (offset and length non-zero) invokes the backend's
write. -/
theorem write_mismatch_answers_400_without_end {β : Type} (U : UpdateClass β)
    (s : AsyncOTAClass) (u : β) (request : AsyncWebServerRequest) (index : Nat)
    (data : List Nat) (len : Nat) (final : Bool) (r : Outcome β)
    (hreach : uploadBegin U s u request index = Except.ok r)
    (hlen : len ≠ 0)
    (hmis : (U.write r.upd data len).1 ≠ len) :
    (handleUpload U s u request index data len final).effects =
      r.effects ++ [Effect.updateWrite data len, Effect.printError,
        Effect.send { code := 400, contentType := "text/plain",
                      content := "OTA could not begin", headers := [] }] ∧
    (∀ evenIfRemaining : Bool, Effect.updateEnd evenIfRemaining ∉
      (handleUpload U s u request index data len final).effects) ∧
    (handleUpload U s u request index data len final).effects.count
      (Effect.updateWrite data len) = 1 ∧
    (handleUpload U s u request index data len final).ota._updateError =
      U.printError (handleUpload U s u request index data len final).upd ∧
    (∀ (s' : AsyncOTAClass) (u' : β) (index' : Nat) (data' : List Nat) (len' : Nat)
      (final' : Bool), index' ≠ 0 → len' ≠ 0 →
      Effect.updateWrite data' len' ∈
        (handleUpload U s' u' request index' data' len' final').effects) := by
  have hrun : handleUpload U s u request index data len final =
      { ota := trackError U r.ota (U.write r.upd data len).2
        upd := (U.write r.upd data len).2
        effects := r.effects ++ [Effect.updateWrite data len, Effect.printError,
          Effect.send { code := 400, contentType := "text/plain",
                        content := "OTA could not begin", headers := [] }] } := by
    rw [handleUpload_of_uploadBegin_ok U s u request index data len final r hreach]
    simp [uploadWrite, hlen, hmis]
  rw [hrun]
  refine ⟨rfl, ?_, ?_, rfl, ?_⟩
  · intro evenIfRemaining
    rcases uploadBegin_ok_effects U s u request index r hreach with h | ⟨value, command, h⟩
      <;> simp [h]
  · rcases uploadBegin_ok_effects U s u request index r hreach with h | ⟨value, command, h⟩
      <;> simp [h, List.count_cons]
  · intro s' u' index' data' len' final' hindex hlen'
    have hb : uploadBegin U s' u' request index' =
        Except.ok { ota := s', upd := u', effects := [] } := by
      simp [uploadBegin, hindex]
    rw [handleUpload_of_uploadBegin_ok U s' u' request index' data' len' final' _ hb]
    apply uploadWrite_cases U s' u' data' len' final' []
      (fun o => Effect.updateWrite data' len' ∈ o.effects)
    · intro h0
      exact absurd h0 hlen'
    · intro _ _
      apply uploadEnd_cases U s' _ final' _
        (fun o => Effect.updateWrite data' len' ∈ o.effects) <;> intros <;> simp
    · intro _ _
      simp

/-- The first chunk of four bytes on a region of three bytes: status 400 after the
write, no end. -/
theorem write_mismatch_answers_400_without_end_witness :
    (handleUpload flashUpdate (AsyncOTAClass.new 11259375) { capacity := 3 } plainRequest
        0 [1, 2, 3, 4] 4 true).effects =
      [Effect.setMD5 "d41d8cd98f00b204e9800998ecf8427e", Effect.wdtInit 15 false,
       Effect.updateBegin UPDATE_SIZE_UNKNOWN U_FLASH] ++
      [Effect.updateWrite [1, 2, 3, 4] 4, Effect.printError,
       Effect.send { code := 400, contentType := "text/plain",
                     content := "OTA could not begin", headers := [] }] ∧
    (handleUpload flashUpdate (AsyncOTAClass.new 11259375) { capacity := 3 } plainRequest
        0 [1, 2, 3, 4] 4 true).ota._updateError = "Not Enough Space" :=
  have h := write_mismatch_answers_400_without_end flashUpdate (AsyncOTAClass.new 11259375)
    { capacity := 3 } plainRequest 0 [1, 2, 3, 4] 4 true
    { ota := AsyncOTAClass.new 11259375
      upd := { capacity := 3, running := true, md5 := "d41d8cd98f00b204e9800998ecf8427e" }
      effects := [Effect.setMD5 "d41d8cd98f00b204e9800998ecf8427e", Effect.wdtInit 15 false,
        Effect.updateBegin UPDATE_SIZE_UNKNOWN U_FLASH] }
    (by rfl) (by decide) (by decide)
  ⟨h.1, h.2.2.2.1.trans (by rfl)⟩

/-! ## The completion handler and the stored error text -/

theorem selectMode_updateError (s : AsyncOTAClass) (request : AsyncWebServerRequest) :
    (selectMode s request)._updateError = s._updateError := by
  unfold selectMode
  split_ifs <;> rfl

/-- Lines 156-161 store the diagnostic text exactly when they call `printError`. -/
theorem uploadEnd_updateError {β : Type} (U : UpdateClass β) (s : AsyncOTAClass) (u : β)
    (final : Bool) (log : List Effect) (hlog : Effect.printError ∉ log) :
    (Effect.printError ∈ (uploadEnd U s u final log).effects →
      (uploadEnd U s u final log).ota._updateError =
        U.printError (uploadEnd U s u final log).upd) ∧
    (Effect.printError ∉ (uploadEnd U s u final log).effects →
      (uploadEnd U s u final log).ota._updateError = s._updateError) := by
  apply uploadEnd_cases U s u final log
    (fun r => (Effect.printError ∈ r.effects → r.ota._updateError = U.printError r.upd) ∧
      (Effect.printError ∉ r.effects → r.ota._updateError = s._updateError))
  · intro _
    exact ⟨fun h => absurd h hlog, fun _ => rfl⟩
  · intro _ _
    refine ⟨fun h => ?_, fun _ => rfl⟩
    simp [hlog] at h
  · intro _ _
    refine ⟨fun _ => rfl, fun h => ?_⟩
    simp at h

/-- Lines 148-161 store the diagnostic text exactly when they call `printError`. -/
theorem uploadWrite_updateError {β : Type} (U : UpdateClass β) (s : AsyncOTAClass) (u : β)
    (data : List Nat) (len : Nat) (final : Bool) (log : List Effect)
    (hlog : Effect.printError ∉ log) :
    (Effect.printError ∈ (uploadWrite U s u data len final log).effects →
      (uploadWrite U s u data len final log).ota._updateError =
        U.printError (uploadWrite U s u data len final log).upd) ∧
    (Effect.printError ∉ (uploadWrite U s u data len final log).effects →
      (uploadWrite U s u data len final log).ota._updateError = s._updateError) := by
  apply uploadWrite_cases U s u data len final log
    (fun r => (Effect.printError ∈ r.effects → r.ota._updateError = U.printError r.upd) ∧
      (Effect.printError ∉ r.effects → r.ota._updateError = s._updateError))
  · intro _
    exact uploadEnd_updateError U s u final log hlog
  · intro _ _
    exact uploadEnd_updateError U s _ final _ (by simp [hlog])
  · intro _ _
    refine ⟨fun _ => rfl, fun h => ?_⟩
    simp at h

/-- A chunk event stores the backend's diagnostic text exactly when it calls
`printError`, and the text is that of the backend as the handler leaves it. -/
theorem handleUpload_updateError {β : Type} (U : UpdateClass β) (s : AsyncOTAClass) (u : β)
    (request : AsyncWebServerRequest) (index : Nat) (data : List Nat) (len : Nat)
    (final : Bool) :
    (Effect.printError ∈ (handleUpload U s u request index data len final).effects →
      (handleUpload U s u request index data len final).ota._updateError =
        U.printError (handleUpload U s u request index data len final).upd) ∧
    (Effect.printError ∉ (handleUpload U s u request index data len final).effects →
      (handleUpload U s u request index data len final).ota._updateError =
        s._updateError) := by
  apply handleUpload_cases U s u request index data len final
    (fun r => (Effect.printError ∈ r.effects → r.ota._updateError = U.printError r.upd) ∧
      (Effect.printError ∉ r.effects → r.ota._updateError = s._updateError))
  · intro _
    exact uploadWrite_updateError U s u data len final [] (by simp)
  · intro _ _
    refine ⟨fun h => ?_, fun _ => rfl⟩
    simp at h
  · intro _ _ _
    refine ⟨fun h => ?_, fun _ => rfl⟩
    simp [badRequest] at h
  · intro value _ _ _ _
    refine ⟨fun h => ?_, fun _ => rfl⟩
    simp [badRequest] at h
  · intro value _ _ _ _ _
    refine ⟨fun _ => rfl, fun h => ?_⟩
    simp at h
  · intro value _ _ _ _ _
    have h := uploadWrite_updateError U (selectMode s request)
      (U.begin (U.setMD5 u value).2 UPDATE_SIZE_UNKNOWN (selectMode s request)._updateMode).2
      data len final
      [Effect.setMD5 value, Effect.wdtInit 15 false,
        Effect.updateBegin UPDATE_SIZE_UNKNOWN (selectMode s request)._updateMode]
      (by simp)
    rw [selectMode_updateError] at h
    exact h

theorem runUpload_append {β : Type} (U : UpdateClass β) (request : AsyncWebServerRequest)
    (c : Chunk) (cs : List Chunk) :
    ∀ (s : AsyncOTAClass) (u : β),
      runUpload U s u request (cs ++ [c]) =
        { ota := (handleUpload U (runUpload U s u request cs).ota
            (runUpload U s u request cs).upd request c.index c.data c.len c.final).ota
          upd := (handleUpload U (runUpload U s u request cs).ota
            (runUpload U s u request cs).upd request c.index c.data c.len c.final).upd
          effects := (runUpload U s u request cs).effects ++
            (handleUpload U (runUpload U s u request cs).ota
              (runUpload U s u request cs).upd request c.index c.data c.len
              c.final).effects } := by
  induction cs with
  | nil => intro s u; simp [runUpload]
  | cons c' cs ih =>
    intro s u
    show runUpload U s u request (c' :: (cs ++ [c])) = _
    simp only [runUpload]
    rw [ih]
    simp only [List.append_assoc]

theorem runUpload_updateError_of_untracked {β : Type} (U : UpdateClass β)
    (request : AsyncWebServerRequest) (chunks : List Chunk) :
    ∀ (s : AsyncOTAClass) (u : β),
      Effect.printError ∉ (runUpload U s u request chunks).effects →
      (runUpload U s u request chunks).ota._updateError = s._updateError := by
  induction chunks with
  | nil => intro s u _; rfl
  | cons c cs ih =>
    intro s u h
    simp only [runUpload, List.mem_append, not_or] at h ⊢
    rw [ih _ _ h.2]
    exact (handleUpload_updateError U s u request _ _ _ _).2 h.1

/-- C4, refuted as stated: a fresh controller, a request without chunk events and a
backend that reports an error with the diagnostic text "Not Enough Space": the completion
response has status 500 and an empty body, not the backend's diagnostic text. -/
theorem completion_body_differs_from_backend_text :
    flashUpdate.hasError { capacity := 8, error := some "Not Enough Space" } = true ∧
    flashUpdate.printError { capacity := 8, error := some "Not Enough Space" } =
      "Not Enough Space" ∧
    (handleRequest flashUpdate
        (runUpload flashUpdate (AsyncOTAClass.new 11259375)
          { capacity := 8, error := some "Not Enough Space" } bareRequest []).ota
        (runUpload flashUpdate (AsyncOTAClass.new 11259375)
          { capacity := 8, error := some "Not Enough Space" } bareRequest []).upd
        (millis 5000)).effects =
      [Effect.send { code := 500, contentType := "text/plain", content := "",
                     headers := [("Connection", "close")] }] := by
  decide

/-- C4, amended: for every controller state and every preceding sequence of chunk
events, if the backend reports an error when the completion handler runs, the completion
response has status exactly 500 and its body is the error text the controller has stored
(`_updateError`). That text is the one stored before the request when no chunk event
called `trackError`, and it is the backend's diagnostic text at completion when the last
chunk event called `trackError`. -/
theorem completion_error_body_is_stored_text {β : Type} (U : UpdateClass β)
    (s : AsyncOTAClass) (u : β) (request : AsyncWebServerRequest) (chunks : List Chunk)
    (t : Nat)
    (herr : U.hasError (runUpload U s u request chunks).upd = true) :
    (handleRequest U (runUpload U s u request chunks).ota
        (runUpload U s u request chunks).upd (millis t)).effects =
      [Effect.send { code := 500, contentType := "text/plain",
                     content := (runUpload U s u request chunks).ota._updateError,
                     headers := [("Connection", "close")] }] ∧
    (Effect.printError ∉ (runUpload U s u request chunks).effects →
      (runUpload U s u request chunks).ota._updateError = s._updateError) ∧
    (∀ (cs : List Chunk) (c : Chunk), chunks = cs ++ [c] →
      Effect.printError ∈ (handleUpload U (runUpload U s u request cs).ota
        (runUpload U s u request cs).upd request c.index c.data c.len c.final).effects →
      (runUpload U s u request chunks).ota._updateError =
        U.printError (runUpload U s u request chunks).upd) := by
  refine ⟨?_, runUpload_updateError_of_untracked U request chunks s u, ?_⟩
  · simp [handleRequest, herr]
  · intro cs c hc htracked
    subst hc
    rw [runUpload_append]
    exact (handleUpload_updateError U _ _ request _ _ _ _).1 htracked

/-- An upload whose only chunk does not fit the region: the completion response has
status 500 and the backend's diagnostic text, stored by the chunk event, as body. -/
theorem completion_error_body_is_stored_text_witness :
    (handleRequest flashUpdate
        (runUpload flashUpdate (AsyncOTAClass.new 11259375) { capacity := 3 } plainRequest
          [⟨0, [1, 2, 3, 4], 4, true⟩]).ota
        (runUpload flashUpdate (AsyncOTAClass.new 11259375) { capacity := 3 } plainRequest
          [⟨0, [1, 2, 3, 4], 4, true⟩]).upd (millis 5000)).effects =
      [Effect.send { code := 500, contentType := "text/plain",
                     content := "Not Enough Space",
                     headers := [("Connection", "close")] }] ∧
    (runUpload flashUpdate (AsyncOTAClass.new 11259375) { capacity := 3 } plainRequest
        [⟨0, [1, 2, 3, 4], 4, true⟩]).ota._updateError =
      flashUpdate.printError
        (runUpload flashUpdate (AsyncOTAClass.new 11259375) { capacity := 3 } plainRequest
          [⟨0, [1, 2, 3, 4], 4, true⟩]).upd :=
  have h := completion_error_body_is_stored_text flashUpdate (AsyncOTAClass.new 11259375)
    { capacity := 3 } plainRequest [⟨0, [1, 2, 3, 4], 4, true⟩] 5000 (by decide)
  ⟨h.1.trans (by decide), h.2.2 [] ⟨0, [1, 2, 3, 4], 4, true⟩ (by rfl) (by decide)⟩

/-! ## An unauthenticated upload -/

/-- C5, the code at the failing input: on a device protected by the credentials
"admin"/"secret", a `POST /update` request that fails the `authenticate` check gets the
authentication challenge from the handler of its first chunk, but its completion handler
still runs lines 116-117: after the request a reboot is pending that was not pending
before, the timestamp has changed, and `loop` restarts the device 2001 ms later. -/
theorem unauthenticated_post_schedules_reboot :
    (begin (AsyncOTAClass.new 11259375) 1 "admin" "secret")._isAuthenticationRequired
      = true ∧
    plainRequest.authenticate "admin" "secret" = false ∧
    (handleUpload flashUpdate (begin (AsyncOTAClass.new 11259375) 1 "admin" "secret")
        { capacity := 8 } plainRequest 0 [1, 2, 3] 3 true).effects =
      [Effect.requestAuthentication] ∧
    (begin (AsyncOTAClass.new 11259375) 1 "admin" "secret")._shouldReboot = false ∧
    (postUpdate flashUpdate (begin (AsyncOTAClass.new 11259375) 1 "admin" "secret")
        { capacity := 8 } plainRequest [⟨0, [1, 2, 3], 3, true⟩] 5000).ota._shouldReboot
      = true ∧
    (postUpdate flashUpdate (begin (AsyncOTAClass.new 11259375) 1 "admin" "secret")
        { capacity := 8 } plainRequest [⟨0, [1, 2, 3], 3, true⟩]
        5000).ota._rebootRequestMillis = 5000 ∧
    (postUpdate flashUpdate (begin (AsyncOTAClass.new 11259375) 1 "admin" "secret")
        { capacity := 8 } plainRequest [⟨0, [1, 2, 3], 3, true⟩] 5000).ota ≠
      begin (AsyncOTAClass.new 11259375) 1 "admin" "secret" ∧
    loop (postUpdate flashUpdate (begin (AsyncOTAClass.new 11259375) 1 "admin" "secret")
        { capacity := 8 } plainRequest [⟨0, [1, 2, 3], 3, true⟩] 5000).ota (millis 7001)
      = true := by
  decide

/-! ## The target region -/

/-- C7, the code at the failing input: after `begin` and a completed upload with
`mode=fs`, the controller state is reachable and holds `U_SPIFFS`; the first chunk of the
next request, which carries no `mode` parameter, begins the update on the filesystem
region instead of the firmware region. -/
theorem region_of_earlier_request_is_kept :
    Reachable flashDevice
      (run flashDevice flashDevice.boot
        [Event.begin 1 "" "", Event.upload fsRequest ⟨0, [1, 2], 2, true⟩,
          Event.completion fsRequest 1000]).1.1 ∧
    plainRequest.hasParam "mode" true = false ∧
    (handleUpload flashUpdate
        (run flashDevice flashDevice.boot
          [Event.begin 1 "" "", Event.upload fsRequest ⟨0, [1, 2], 2, true⟩,
            Event.completion fsRequest 1000]).1.1
        (run flashDevice flashDevice.boot
          [Event.begin 1 "" "", Event.upload fsRequest ⟨0, [1, 2], 2, true⟩,
            Event.completion fsRequest 1000]).1.2
        plainRequest 0 [3, 4] 2 false).effects =
      [Effect.setMD5 "d41d8cd98f00b204e9800998ecf8427e", Effect.wdtInit 15 false,
       Effect.updateBegin UPDATE_SIZE_UNKNOWN U_SPIFFS, Effect.updateWrite [3, 4] 2] :=
  ⟨⟨_, rfl⟩, by decide, by decide⟩

/-! ## The reboot fires at most once -/

theorem restartCount_append (xs ys : List Effect) :
    restartCount (xs ++ ys) = restartCount xs + restartCount ys := by
  simp [restartCount, List.count_append]

theorem loop_congr (s s' : AsyncOTAClass) (now : Nat)
    (h1 : s'._shouldReboot = s._shouldReboot)
    (h2 : s'._rebootRequestMillis = s._rebootRequestMillis) : loop s' now = loop s now := by
  simp [loop, h1, h2]

theorem loop_false_of_not_pending (s : AsyncOTAClass) (now : Nat)
    (h : s._shouldReboot = false) : loop s now = false := by
  simp [loop, h]

/-- A call of the host that does not restart leaves the pending reboot as it is and makes
no call; one that restarts boots the device. -/
theorem step_hostCall {β : Type} (d : Device β) (w : AsyncOTAClass × β) (e : Event)
    (he : e.isHostCall = true) :
    (loopFires w.1 e = false ∧ (step d w e).2 = [] ∧
      (step d w e).1.1._shouldReboot = w.1._shouldReboot ∧
      (step d w e).1.1._rebootRequestMillis = w.1._rebootRequestMillis) ∨
    (loopFires w.1 e = true ∧ (step d w e).2 = [Effect.restart] ∧
      (step d w e).1 = d.boot) := by
  cases e with
  | setID id => exact Or.inl ⟨rfl, rfl, rfl, rfl⟩
  | setAuth username password => exact Or.inl ⟨rfl, rfl, rfl, rfl⟩
  | begin server username password => exact Or.inl ⟨rfl, rfl, rfl, rfl⟩
  | loop t =>
    cases h : loop w.1 (millis t) with
    | false => exact Or.inl (by simp [loopFires, step, h])
    | true => exact Or.inr (by simp [loopFires, step, h])
  | getId request => cases he
  | getUpdate request => cases he
  | options request => cases he
  | upload request c => cases he
  | completion request t => cases he

theorem loopFires_congr (s s' : AsyncOTAClass) (e : Event)
    (h1 : s'._shouldReboot = s._shouldReboot)
    (h2 : s'._rebootRequestMillis = s._rebootRequestMillis) :
    loopFires s' e = loopFires s e := by
  cases e <;> simp [loopFires, loop_congr s s' _ h1 h2]

/-- With no reboot pending, calls of the host never restart. -/
theorem run_hostCalls_not_pending {β : Type} (d : Device β) (events : List Event) :
    ∀ w : AsyncOTAClass × β, (∀ e ∈ events, e.isHostCall = true) →
      w.1._shouldReboot = false → restartCount (run d w events).2 = 0 := by
  induction events with
  | nil => intro w _ _; rfl
  | cons e es ih =>
    intro w hhost hw
    have he := hhost e (List.mem_cons_self e es)
    have hes : ∀ e' ∈ es, e'.isHostCall = true :=
      fun e' h' => hhost e' (List.mem_cons_of_mem e h')
    simp only [run, restartCount_append]
    rcases step_hostCall d w e he with ⟨_, h2, h3, _⟩ | ⟨h1, _, _⟩
    · rw [h2, ih _ hes (h3.trans hw)]
      rfl
    · exfalso
      cases e <;> simp [loopFires, loop_false_of_not_pending _ _ hw] at h1

/-- From a state with the pending flag and timestamp of `s0`, calls of the host restart
once if one of the calls of `loop` fires for `s0`, and never otherwise. -/
theorem run_hostCalls_restartCount {β : Type} (d : Device β) (s0 : AsyncOTAClass)
    (events : List Event) :
    ∀ w : AsyncOTAClass × β, (∀ e ∈ events, e.isHostCall = true) →
      w.1._shouldReboot = s0._shouldReboot →
      w.1._rebootRequestMillis = s0._rebootRequestMillis →
      restartCount (run d w events).2 = if events.any (loopFires s0) then 1 else 0 := by
  induction events with
  | nil => intro w _ _ _; rfl
  | cons e es ih =>
    intro w hhost hw1 hw2
    have he := hhost e (List.mem_cons_self e es)
    have hes : ∀ e' ∈ es, e'.isHostCall = true :=
      fun e' h' => hhost e' (List.mem_cons_of_mem e h')
    have hfire : loopFires w.1 e = loopFires s0 e := loopFires_congr s0 w.1 e hw1 hw2
    simp only [run, restartCount_append, List.any_cons]
    rcases step_hostCall d w e he with ⟨h1, h2, h3, h4⟩ | ⟨h1, h2, h3⟩
    · have hs0 : loopFires s0 e = false := hfire ▸ h1
      rw [h2, ih _ hes (h3.trans hw1) (h4.trans hw2)]
      simp [hs0, restartCount]
    · have hs0 : loopFires s0 e = true := hfire ▸ h1
      rw [h2, h3, run_hostCalls_not_pending d es d.boot hes rfl]
      simp [hs0, restartCount]

/-- Calls of the host none of which fires leave the pending flag and the timestamp. -/
theorem run_hostCalls_pending_kept {β : Type} (d : Device β) (s0 : AsyncOTAClass)
    (events : List Event) :
    ∀ w : AsyncOTAClass × β, (∀ e ∈ events, e.isHostCall = true) →
      events.any (loopFires s0) = false →
      w.1._shouldReboot = s0._shouldReboot →
      w.1._rebootRequestMillis = s0._rebootRequestMillis →
      (run d w events).1.1._shouldReboot = s0._shouldReboot ∧
        (run d w events).1.1._rebootRequestMillis = s0._rebootRequestMillis := by
  induction events with
  | nil => intro w _ _ hw1 hw2; exact ⟨hw1, hw2⟩
  | cons e es ih =>
    intro w hhost hany hw1 hw2
    have he := hhost e (List.mem_cons_self e es)
    have hes : ∀ e' ∈ es, e'.isHostCall = true :=
      fun e' h' => hhost e' (List.mem_cons_of_mem e h')
    have hfire : loopFires w.1 e = loopFires s0 e := loopFires_congr s0 w.1 e hw1 hw2
    simp only [List.any_cons, Bool.or_eq_false_iff] at hany
    simp only [run]
    rcases step_hostCall d w e he with ⟨_, _, h3, h4⟩ | ⟨h1, _, _⟩
    · exact ih _ hes hany.2 (h3.trans hw1) (h4.trans hw2)
    · rw [hfire, hany.1] at h1
      cases h1

/-- C6, refuted as stated: after a completed request at time 0, the calls of `loop` at
1000 ms and 1500 ms are a sequence of calls made after it, and none of them invokes
restart. -/
theorem no_restart_in_early_loop_calls :
    restartCount
      (run flashDevice
        ((postUpdate flashUpdate (AsyncOTAClass.new 11259375) { capacity := 8 } plainRequest
            [⟨0, [1, 2, 3], 3, true⟩] 0).ota,
         (postUpdate flashUpdate (AsyncOTAClass.new 11259375) { capacity := 8 } plainRequest
            [⟨0, [1, 2, 3], 3, true⟩] 0).upd)
        [Event.loop 1000, Event.loop 1500]).2 = 0 := by
  decide

/-- C6, amended: after every completed `POST /update` request cycle and for every
sequence of calls made by the host after it (calls of `loop`, and the configuration
calls the host makes when the device has booted again), restart is invoked by at most one
of the calls, and by exactly one when some call of `loop` in the sequence finds more than
2000 ms elapsed since the completion; once a call has invoked restart, no later call
invokes it again. -/
theorem restart_at_most_once_after_completion {β : Type} (d : Device β)
    (s : AsyncOTAClass) (u : β) (request : AsyncWebServerRequest) (chunks : List Chunk)
    (t : Nat) (events : List Event)
    (hhost : ∀ e ∈ events, e.isHostCall = true) :
    restartCount
        (run d ((postUpdate d.Update s u request chunks t).ota,
          (postUpdate d.Update s u request chunks t).upd) events).2 =
      (if events.any (loopFires (postUpdate d.Update s u request chunks t).ota)
        then 1 else 0) ∧
    restartCount
        (run d ((postUpdate d.Update s u request chunks t).ota,
          (postUpdate d.Update s u request chunks t).upd) events).2 ≤ 1 ∧
    (∀ (before after : List Event) (e : Event), events = before ++ e :: after →
      loopFires (postUpdate d.Update s u request chunks t).ota e = true →
      before.any (loopFires (postUpdate d.Update s u request chunks t).ota) = false →
      restartCount
        (run d (step d (run d ((postUpdate d.Update s u request chunks t).ota,
          (postUpdate d.Update s u request chunks t).upd) before).1 e).1 after).2 = 0) := by
  have hcount := run_hostCalls_restartCount d (postUpdate d.Update s u request chunks t).ota
    events ((postUpdate d.Update s u request chunks t).ota,
      (postUpdate d.Update s u request chunks t).upd) hhost rfl rfl
  refine ⟨hcount, ?_, ?_⟩
  · rw [hcount]
    split_ifs <;> simp
  · intro before after e hev hfire hbefore
    subst hev
    have hb : ∀ e' ∈ before, e'.isHostCall = true :=
      fun e' h' => hhost e' (List.mem_append_left _ h')
    have he : e.isHostCall = true :=
      hhost e (List.mem_append_right _ (List.mem_cons_self e after))
    have ha : ∀ e' ∈ after, e'.isHostCall = true :=
      fun e' h' => hhost e' (List.mem_append_right _ (List.mem_cons_of_mem e h'))
    have hkept := run_hostCalls_pending_kept d (postUpdate d.Update s u request chunks t).ota
      before ((postUpdate d.Update s u request chunks t).ota,
        (postUpdate d.Update s u request chunks t).upd) hb hbefore rfl rfl
    rcases step_hostCall d (run d ((postUpdate d.Update s u request chunks t).ota,
        (postUpdate d.Update s u request chunks t).upd) before).1 e he with
      ⟨h1, _, _, _⟩ | ⟨_, _, h3⟩
    · rw [loopFires_congr _ _ e hkept.1 hkept.2, hfire] at h1
      cases h1
    · rw [h3]
      exact run_hostCalls_not_pending d after d.boot ha rfl

/-- After a completed request at time 0: the call of `loop` at 1000 ms does not restart,
the call at 2001 ms does, and neither the host's `begin` after the boot nor the call of
`loop` at 9000 ms restarts again. -/
theorem restart_at_most_once_after_completion_witness :
    restartCount
      (run flashDevice
        ((postUpdate flashUpdate (AsyncOTAClass.new 11259375) { capacity := 8 } plainRequest
            [⟨0, [1, 2, 3], 3, true⟩] 0).ota,
         (postUpdate flashUpdate (AsyncOTAClass.new 11259375) { capacity := 8 } plainRequest
            [⟨0, [1, 2, 3], 3, true⟩] 0).upd)
        [Event.loop 1000, Event.loop 2001, Event.begin 1 "" "", Event.loop 9000]).2 = 1 :=
  (restart_at_most_once_after_completion flashDevice (AsyncOTAClass.new 11259375)
    { capacity := 8 } plainRequest [⟨0, [1, 2, 3], 3, true⟩] 0
    [Event.loop 1000, Event.loop 2001, Event.begin 1 "" "", Event.loop 9000]
    (by decide)).1.trans (by decide)

end AsyncOTA
